import Mathlib

/-!
# LunarAscent/lunarAscent.cpp: the fitness wrapper of the lunar ascent problem

A shallow embedding of `getThrustAccelerationModelFromParameters`, of the
`LunarAscentProblem` constructor, of `LunarAscentProblem::fitness` and of
`LunarAscentProblem::computeObjectivesAndConstraints`.

Conventions of the embedding.

* The code never computes with a `double`: it stores, copies and returns them.
  The carrier `D` of the doubles is therefore a parameter; the only literal,
  `0.0`, is read through `OfScientific D`.
* `std::map` / `std::unordered_map` are association lists read by their first
  matching key; `operator[]` default-constructs a missing value.
* The objects of the simulation library (bodies, propagator settings, the
  dynamics simulator) are not part of this file of the repository. Their types
  are parameters and their member functions are the fields of `Engine`; every
  call may throw and may change the library state `W`.
* A C++ exception is an `Except.error`; the state reached when it is thrown is
  kept next to it. Dereferencing an empty `shared_ptr` (undefined behaviour, a
  crash in practice) is the error `nullDereference`.
* `unsigned int` is 32 bits wide and `std::size_t` is wider (LP64 / LLP64), so a
  loop counter wraps at `2 ^ 32` while a container size does not.
-/

namespace LunarAscent

/-! ## Containers -/

/-- The exceptions that can leave the code of `lunarAscent.cpp`. -/
inductive Error where
  /-- Thrown by `at` of a standard container (`std::out_of_range`). -/
  | out_of_range
  /-- An empty `shared_ptr` was dereferenced. -/
  | nullDereference
  /-- An exception raised inside a library call, with its message. -/
  | library (what : String)
  deriving DecidableEq, Repr

/-- The value stored under `k` (`std::map::find`). -/
def find? {K V : Type} [DecidableEq K] : List (K × V) → K → Option V
  | [], _ => none
  | (k', v) :: rest, k => if k' = k then some v else find? rest k

/-- The checked access `m.at( k )`, which throws `std::out_of_range` for a missing key. -/
def mapAt {K V : Type} [DecidableEq K] (m : List (K × V)) (k : K) : Except Error V :=
  match find? m k with
  | some v => .ok v
  | none => .error .out_of_range

/-- The checked access `v.at( i )` of a `std::vector`. -/
def vectorAt {V : Type} (v : List V) (i : Nat) : Except Error V :=
  match v[i]? with
  | some x => .ok x
  | none => .error .out_of_range

/-- The access `m[ k ]` followed by the in-place change `f` of the value it refers to;
a missing key is first inserted with the default-constructed value `dflt`. -/
def index {K V : Type} [DecidableEq K] (dflt : V) (f : V → V) : List (K × V) → K → List (K × V)
  | [], k => [(k, f dflt)]
  | (k', v) :: rest, k =>
    if k' = k then (k', f v) :: rest else (k', v) :: index dflt f rest k

/-! ## Force descriptors -/

/-- `CustomThrustDirectionSettings( thrustDirectionFunction )`: the direction function is
`LunarAscentThrustGuidance::getCurrentThrustDirection` bound to the guidance object. -/
structure CustomThrustDirectionSettings (G : Type) where
  thrustDirectionFunction : G
  deriving DecidableEq, Repr

/-- `FromFunctionThrustMagnitudeSettings( thrustMagnitudeFunction, isp )`: the magnitude
function is `LunarAscentThrustGuidance::getCurrentThrustMagnitude` bound to the guidance
object, the specific impulse function is the constant one. -/
structure FromFunctionThrustMagnitudeSettings (G D : Type) where
  thrustMagnitudeFunction : G
  constantSpecificImpulse : D
  deriving DecidableEq, Repr

/-- `ThrustAccelerationSettings( thrustDirectionGuidanceSettings, thrustMagnitudeSettings )`. -/
structure ThrustAccelerationSettings (G D : Type) where
  thrustDirectionGuidanceSettings : CustomThrustDirectionSettings G
  thrustMagnitudeSettings : FromFunctionThrustMagnitudeSettings G D
  deriving DecidableEq, Repr

/-- What a `shared_ptr< AccelerationSettings >` of the table points to: a thrust
descriptor as built in this file, or any other settings object of the library. -/
inductive AccelerationSettings (G D A : Type) where
  | thrust (settings : ThrustAccelerationSettings G D)
  | other (settings : A)
  deriving DecidableEq, Repr

/-- `simulation_setup::SelectedAccelerationMap`: body undergoing the acceleration, then
body exerting it, then the ordered list of descriptors. -/
abbrev SelectedAccelerationMap (G D A : Type) :=
  List (String × List (String × List (AccelerationSettings G D A)))

/-- `simulation_setup::NamedBodyMap`. -/
abbrev NamedBodyMap (B : Type) := List (String × B)

/-- The descriptors of the forces that `exerting` exerts on `affected`, if the table has
an entry for that pair. -/
def forcesOn {G D A : Type} (table : SelectedAccelerationMap G D A)
    (affected exerting : String) : Option (List (AccelerationSettings G D A)) :=
  (find? table affected).bind fun inner => find? inner exerting

/-- The statement `accelerationSettings[ "Vehicle" ][ "Vehicle" ].clear( )`. -/
def clearVehicleSelf {G D A : Type} (table : SelectedAccelerationMap G D A) :
    SelectedAccelerationMap G D A :=
  index [] (fun inner => index [] (fun _ => []) inner "Vehicle") table "Vehicle"

/-- The statement `accelerationSettings[ "Vehicle" ][ "Vehicle" ].push_back( s )`. -/
def pushVehicleSelf {G D A : Type} (table : SelectedAccelerationMap G D A)
    (s : AccelerationSettings G D A) : SelectedAccelerationMap G D A :=
  index [] (fun inner => index [] (fun l => l ++ [s]) inner "Vehicle") table "Vehicle"

/-! ## The simulation library -/

/-- `IntegratorSettings< >`, of which this file reads the public member `initialTime_`. -/
structure IntegratorSettings (D : Type) where
  initialTime_ : D
  deriving DecidableEq, Repr

/-- The keys of `propagatorSettingsMap_`; only `translational_state` is named in this file. -/
inductive IntegratedStateType where
  | translational_state
  | otherState (tag : Nat)
  deriving DecidableEq, Repr

/-- A `shared_ptr< SingleArcPropagatorSettings< double > >` with the dynamic type of the
object it points to: `translational h` points to the
`TranslationalStatePropagatorSettings< double >` object `h`. -/
inductive SingleArcPropagatorSettingsPtr (H : Type) where
  | null
  | translational (h : H)
  | otherSettings
  deriving DecidableEq, Repr

/-- `MultiTypePropagatorSettings< double >`, of which this file reads the public member
`propagatorSettingsMap_`. -/
structure MultiTypePropagatorSettings (H : Type) where
  propagatorSettingsMap_ : List (IntegratedStateType × List (SingleArcPropagatorSettingsPtr H))
  deriving DecidableEq, Repr

/-- `std::dynamic_pointer_cast< TranslationalStatePropagatorSettings< double > >`: empty
unless the object pointed to has that type. -/
def dynamicPointerCast {H : Type} : SingleArcPropagatorSettingsPtr H → Option H
  | .translational h => some h
  | _ => none

/-- The time-indexed histories the simulator returns (`std::map< double, Eigen::VectorXd >`). -/
abbrev History (D : Type) := List (D × List D)

/-- The member functions this file calls on objects defined elsewhere. `W` is the state of
the library objects behind the shared pointers, `H` names a translational propagator
settings object, `S` is a dynamics simulator, `B` a body, `G` a guidance object.
`newLunarAscentThrustGuidance` is the constructor of `LunarAscentThrustGuidance`, declared in
`lunarAscent.h`; the other fields belong to the simulation library. -/
structure Engine (D B G A H S W : Type) where
  newLunarAscentThrustGuidance : B → D → List D → W → Except Error G
  getAccelerationSettingsMap : H → W → SelectedAccelerationMap G D A
  resetAccelerationModelsMap :
    H → SelectedAccelerationMap G D A → NamedBodyMap B → W → Except Error Unit × W
  resetIntegratedStateModels :
    MultiTypePropagatorSettings H → NamedBodyMap B → W → Except Error Unit × W
  newSingleArcDynamicsSimulator :
    NamedBodyMap B → IntegratorSettings D → MultiTypePropagatorSettings H → W →
      Except Error S × W
  getEquationsOfMotionNumericalSolution : S → W → History D
  getDependentVariableHistory : S → W → History D

/-- The library calls of one evaluation that change library state or read the propagated
trajectory, recorded in the order in which they are made. -/
inductive LibraryCall (D B G A : Type) where
  | resetAccelerationModelsMap (table : SelectedAccelerationMap G D A) (bodyMap : NamedBodyMap B)
  | resetIntegratedStateModels
  | newSingleArcDynamicsSimulator
  | getEquationsOfMotionNumericalSolution
  | getDependentVariableHistory
  deriving Repr

/-! ## `getThrustAccelerationModelFromParameters` -/

/-- Function that generates thrust acceleration model from thrust parameters
(`lunarAscent.cpp`, lines 19-43). -/
def getThrustAccelerationModelFromParameters {D B G A H S W : Type}
    (E : Engine D B G A H S W) (decisionVariables : List D) (bodyMap : NamedBodyMap B)
    (initialTime : D) (constantSpecificImpulse : D) (w : W) :
    Except Error (ThrustAccelerationSettings G D) :=
  match mapAt bodyMap "Vehicle" with
  | .error e => .error e
  | .ok vehicle =>
    match E.newLunarAscentThrustGuidance vehicle initialTime decisionVariables w with
    | .error e => .error e
    | .ok thrustGuidance =>
      .ok { thrustDirectionGuidanceSettings := { thrustDirectionFunction := thrustGuidance }
            thrustMagnitudeSettings :=
              { thrustMagnitudeFunction := thrustGuidance
                constantSpecificImpulse := constantSpecificImpulse } }

/-! ## `LunarAscentProblem` -/

/-- The data members of `LunarAscentProblem`. `translationalStatePropagatorSettings_` is
`none` for an empty pointer; `dynamicsSimulator_`, `objectives_` and `constraints_` are the
members a `const` evaluation still writes. -/
structure LunarAscentProblem (D B H S : Type) where
  bodyMap_ : NamedBodyMap B
  integratorSettings_ : IntegratorSettings D
  propagatorSettings_ : MultiTypePropagatorSettings H
  constantSpecificImpulse_ : D
  translationalStatePropagatorSettings_ : Option H
  boxBounds_ : List D × List D
  dynamicsSimulator_ : Option S
  objectives_ : List D
  constraints_ : List D
  deriving DecidableEq, Repr

/-- The loop of lines 65-69 with its 32-bit counter `i`. `none` when `fuel` iterations do
not reach the exit test with `i < decisionVariableRange.size( )` false. -/
def boxBoundsLoop {D : Type} (decisionVariableRange : List (D × D)) :
    Nat → Nat → List D → List D → Option (Except Error (List D × List D))
  | 0, _, _, _ => none
  | fuel + 1, i, boxBoundMinima, boxBoundMaxima =>
    if i < decisionVariableRange.length then
      match vectorAt decisionVariableRange i with
      | .error e => some (.error e)
      | .ok range =>
        boxBoundsLoop decisionVariableRange fuel ((i + 1) % 2 ^ 32)
          (boxBoundMinima ++ [range.1]) (boxBoundMaxima ++ [range.2])
    else some (.ok (boxBoundMinima, boxBoundMaxima))

/-- The constructor `LunarAscentProblem::LunarAscentProblem` (lines 51-72). The vectors
`objectives_` and `constraints_` and the pointer `dynamicsSimulator_` are
default-constructed: empty. `none` when the loop over the ranges does not finish within
`fuel` iterations. -/
def LunarAscentProblem.constructor {D B H S : Type} (fuel : Nat)
    (bodyMap : NamedBodyMap B) (integratorSettings : IntegratorSettings D)
    (propagatorSettings : MultiTypePropagatorSettings H)
    (decisionVariableRange : List (D × D)) (constantSpecificImpulse : D) :
    Option (Except Error (LunarAscentProblem D B H S)) :=
  match mapAt propagatorSettings.propagatorSettingsMap_ .translational_state with
  | .error e => some (.error e)
  | .ok settingsList =>
    match vectorAt settingsList 0 with
    | .error e => some (.error e)
    | .ok settings =>
      match boxBoundsLoop decisionVariableRange fuel 0 [] [] with
      | none => none
      | some (.error e) => some (.error e)
      | some (.ok bounds) =>
        some (.ok { bodyMap_ := bodyMap
                    integratorSettings_ := integratorSettings
                    propagatorSettings_ := propagatorSettings
                    constantSpecificImpulse_ := constantSpecificImpulse
                    translationalStatePropagatorSettings_ := dynamicPointerCast settings
                    boxBounds_ := bounds
                    dynamicsSimulator_ := none
                    objectives_ := []
                    constraints_ := [] })

/-- What a member function leaves behind: the value returned or the exception thrown, the
data members, the library state, and the library calls made. -/
structure Outcome (α D B G A H S W : Type) where
  result : Except Error α
  problem : LunarAscentProblem D B H S
  library : W
  calls : List (LibraryCall D B G A)

/-- The reduction step (lines 101-110): both histories are read, the statement
`constraints_;` has no effect, and `objectives_` is assigned `{ 0.0 }`. -/
def LunarAscentProblem.computeObjectivesAndConstraints {D B G A H S W : Type} [OfScientific D]
    (E : Engine D B G A H S W) (p : LunarAscentProblem D B H S) (w : W)
    (_decisionVariables : List D) : Outcome Unit D B G A H S W :=
  match p.dynamicsSimulator_ with
  | none => { result := .error .nullDereference, problem := p, library := w, calls := [] }
  | some simulator =>
    let _stateHistory := E.getEquationsOfMotionNumericalSolution simulator w
    let _dependentVariableHistory := E.getDependentVariableHistory simulator w
    { result := .ok ()
      problem := { p with objectives_ := [0.0] }
      library := w
      calls := [.getEquationsOfMotionNumericalSolution, .getDependentVariableHistory] }

/-- One evaluation (lines 74-99). -/
def LunarAscentProblem.fitness {D B G A H S W : Type} [OfScientific D]
    (E : Engine D B G A H S W) (p : LunarAscentProblem D B H S) (w : W)
    (decisionVariables : List D) : Outcome (List D) D B G A H S W :=
  match p.translationalStatePropagatorSettings_ with
  | none => { result := .error .nullDereference, problem := p, library := w, calls := [] }
  | some translational =>
    let accelerationSettings := clearVehicleSelf (E.getAccelerationSettingsMap translational w)
    match getThrustAccelerationModelFromParameters E decisionVariables p.bodyMap_
        p.integratorSettings_.initialTime_ p.constantSpecificImpulse_ w with
    | .error e => { result := .error e, problem := p, library := w, calls := [] }
    | .ok newThrustSettings =>
      let accelerationSettings := pushVehicleSelf accelerationSettings (.thrust newThrustSettings)
      match E.resetAccelerationModelsMap translational accelerationSettings p.bodyMap_ w with
      | (.error e, w1) =>
        { result := .error e, problem := p, library := w1
          calls := [.resetAccelerationModelsMap accelerationSettings p.bodyMap_] }
      | (.ok _, w1) =>
        match E.resetIntegratedStateModels p.propagatorSettings_ p.bodyMap_ w1 with
        | (.error e, w2) =>
          { result := .error e, problem := p, library := w2
            calls := [.resetAccelerationModelsMap accelerationSettings p.bodyMap_,
                      .resetIntegratedStateModels] }
        | (.ok _, w2) =>
          match E.newSingleArcDynamicsSimulator p.bodyMap_ p.integratorSettings_
              p.propagatorSettings_ w2 with
          | (.error e, w3) =>
            { result := .error e, problem := p, library := w3
              calls := [.resetAccelerationModelsMap accelerationSettings p.bodyMap_,
                        .resetIntegratedStateModels, .newSingleArcDynamicsSimulator] }
          | (.ok simulator, w3) =>
            let reduced := LunarAscentProblem.computeObjectivesAndConstraints E
              { p with dynamicsSimulator_ := some simulator } w3 decisionVariables
            { result := reduced.result.map fun _ => reduced.problem.objectives_
              problem := reduced.problem
              library := reduced.library
              calls := [.resetAccelerationModelsMap accelerationSettings p.bodyMap_,
                        .resetIntegratedStateModels, .newSingleArcDynamicsSimulator]
                       ++ reduced.calls }

/-- The tables handed to `resetAccelerationModelsMap`, in call order. -/
def handedTables {D B G A : Type} :
    List (LibraryCall D B G A) → List (SelectedAccelerationMap G D A)
  | [] => []
  | .resetAccelerationModelsMap table _ :: rest => table :: handedTables rest
  | _ :: rest => handedTables rest

/-- Consecutive evaluations of one instance: the outcome of every call, in call order,
each call starting from the members and the library state the previous one left. -/
def evaluations {D B G A H S W : Type} [OfScientific D] (E : Engine D B G A H S W) :
    LunarAscentProblem D B H S → W → List (List D) → List (Outcome (List D) D B G A H S W)
  | _, _, [] => []
  | p, w, d :: rest =>
    (LunarAscentProblem.fitness E p w d) ::
      evaluations E (LunarAscentProblem.fitness E p w d).problem
        (LunarAscentProblem.fitness E p w d).library rest

/-- The precondition the constructor leaves unchecked: no `translational_state` entry, an
empty list under it, or a first element that is not a translational settings object. -/
def lacksTranslationalSettings {H : Type} (propagatorSettings : MultiTypePropagatorSettings H) :
    Prop :=
  match find? propagatorSettings.propagatorSettingsMap_ .translational_state with
  | none => True
  | some [] => True
  | some (settings :: _) => dynamicPointerCast settings = none

/-! ## A small library instance

Used to evaluate the definitions on concrete inputs. -/

/-- Library state of the small instance: the table held by the translational propagator
settings, and whether building the dynamics simulator throws. -/
structure SmallWorld where
  table : SelectedAccelerationMap (List ℚ) ℚ String
  propagationFails : Bool

/-- A library in which the guidance object is the parameter vector (an empty one is
refused), the settings keep the table they are handed, and the simulator cannot be built
when the world says so. -/
def smallEngine : Engine ℚ Nat (List ℚ) String Unit Nat SmallWorld where
  newLunarAscentThrustGuidance := fun _ _ d _ =>
    match d with
    | [] => .error .out_of_range
    | _ :: _ => .ok d
  getAccelerationSettingsMap := fun _ w => w.table
  resetAccelerationModelsMap := fun _ table _ w => (.ok (), { w with table := table })
  resetIntegratedStateModels := fun _ _ w => (.ok (), w)
  newSingleArcDynamicsSimulator := fun _ _ _ w =>
    if w.propagationFails then (.error (.library "propagation failed"), w) else (.ok 0, w)
  getEquationsOfMotionNumericalSolution := fun _ _ => []
  getDependentVariableHistory := fun _ _ => []

/-- Two bodies, the Moon and the vehicle. -/
def smallBodyMap : NamedBodyMap Nat := [("Moon", 0), ("Vehicle", 1)]

/-- A propagator configuration whose translational state entry is a translational settings
object. -/
def smallPropagatorSettings : MultiTypePropagatorSettings Unit :=
  { propagatorSettingsMap_ := [(.translational_state, [.translational ()])] }

/-- A propagator configuration whose translational state entry is of another kind. -/
def wrongKindPropagatorSettings : MultiTypePropagatorSettings Unit :=
  { propagatorSettingsMap_ := [(.translational_state, [.otherSettings])] }

/-- The Moon's gravity on the vehicle, and two stale entries of the vehicle on itself. -/
def smallTable : SelectedAccelerationMap (List ℚ) ℚ String :=
  [("Vehicle", [("Moon", [.other "pointMassGravity"]),
                ("Vehicle", [.other "staleThrust", .other "staleThrust"])])]

/-- A world in which propagation succeeds. -/
def smallWorld : SmallWorld := { table := smallTable, propagationFails := false }

/-- A world in which building the simulator throws. -/
def failingWorld : SmallWorld := { table := smallTable, propagationFails := true }

/-- The instance built from two box-bound pairs and a specific impulse of 3000. -/
def smallProblem : LunarAscentProblem ℚ Nat Unit Nat :=
  { bodyMap_ := smallBodyMap
    integratorSettings_ := { initialTime_ := 0 }
    propagatorSettings_ := smallPropagatorSettings
    constantSpecificImpulse_ := 3000
    translationalStatePropagatorSettings_ := some ()
    boxBounds_ := ([0, 0], [1, 6])
    dynamicsSimulator_ := none
    objectives_ := []
    constraints_ := [] }

/-- The thrust descriptor the small library builds from the parameter vector `d`. -/
def smallThrust (d : List ℚ) : ThrustAccelerationSettings (List ℚ) ℚ :=
  { thrustDirectionGuidanceSettings := { thrustDirectionFunction := d }
    thrustMagnitudeSettings := { thrustMagnitudeFunction := d, constantSpecificImpulse := 3000 } }

/-! ## Association lists -/

section Containers

variable {K V : Type} [DecidableEq K]

theorem find?_index_self (dflt : V) (f : V → V) (m : List (K × V)) (k : K) :
    find? (index dflt f m k) k = some (f ((find? m k).getD dflt)) := by
  induction m with
  | nil => simp [index, find?]
  | cons kv rest ih =>
    obtain ⟨k', v⟩ := kv
    by_cases h : k' = k
    · simp [index, find?, h]
    · simp [index, find?, h, ih]

theorem find?_index_of_ne (dflt : V) (f : V → V) (m : List (K × V)) {k k' : K}
    (hne : k' ≠ k) : find? (index dflt f m k) k' = find? m k' := by
  induction m with
  | nil => simp [index, find?, Ne.symm hne]
  | cons kv rest ih =>
    obtain ⟨k'', v⟩ := kv
    by_cases h : k'' = k
    · subst h
      simp [index, find?, Ne.symm hne]
    · by_cases h' : k'' = k'
      · subst h'
        simp [index, find?, h]
      · simp [index, find?, h, h', ih]

end Containers

/-! ## The splice of the thrust descriptor -/

section Splice

variable {G D A : Type}

/-- Changing the list under ("Vehicle", "Vehicle") leaves that pair with the changed list. -/
theorem forcesOn_index_vehicle (f : List (AccelerationSettings G D A) →
    List (AccelerationSettings G D A)) (table : SelectedAccelerationMap G D A) :
    forcesOn (index [] (fun inner => index [] f inner "Vehicle") table "Vehicle")
      "Vehicle" "Vehicle" = some (f ((forcesOn table "Vehicle" "Vehicle").getD [])) := by
  unfold forcesOn
  rw [find?_index_self]
  cases hfind : find? table "Vehicle" with
  | none => simp [find?_index_self, find?]
  | some inner => simp [find?_index_self]

/-- Changing the list under ("Vehicle", "Vehicle") leaves every other pair as it was. -/
theorem forcesOn_index_other (f : List (AccelerationSettings G D A) →
    List (AccelerationSettings G D A)) (table : SelectedAccelerationMap G D A)
    (affected exerting : String) (hne : ¬ (affected = "Vehicle" ∧ exerting = "Vehicle")) :
    forcesOn (index [] (fun inner => index [] f inner "Vehicle") table "Vehicle")
      affected exerting = forcesOn table affected exerting := by
  unfold forcesOn
  by_cases ha : affected = "Vehicle"
  · subst ha
    have hb : exerting ≠ "Vehicle" := fun hb => hne ⟨rfl, hb⟩
    rw [find?_index_self]
    cases hfind : find? table "Vehicle" with
    | none => simp [find?_index_of_ne _ _ _ hb, find?, Ne.symm hb]
    | some inner => simp [find?_index_of_ne _ _ _ hb]
  · rw [find?_index_of_ne _ _ _ ha]

theorem forcesOn_push_clear (table : SelectedAccelerationMap G D A)
    (s : AccelerationSettings G D A) :
    forcesOn (pushVehicleSelf (clearVehicleSelf table) s) "Vehicle" "Vehicle" = some [s] := by
  unfold pushVehicleSelf clearVehicleSelf
  rw [forcesOn_index_vehicle, forcesOn_index_vehicle]
  simp

theorem forcesOn_push_clear_other (table : SelectedAccelerationMap G D A)
    (s : AccelerationSettings G D A) (affected exerting : String)
    (hne : ¬ (affected = "Vehicle" ∧ exerting = "Vehicle")) :
    forcesOn (pushVehicleSelf (clearVehicleSelf table) s) affected exerting
      = forcesOn table affected exerting := by
  unfold pushVehicleSelf clearVehicleSelf
  rw [forcesOn_index_other _ _ _ _ hne, forcesOn_index_other _ _ _ _ hne]

end Splice

/-! ## One evaluation -/

section Evaluation

variable {D B G A H S W : Type} [OfScientific D]

/-- The table an evaluation hands to `resetAccelerationModelsMap`: none when the settings
pointer is empty or the thrust descriptor cannot be built, else the table read from the
settings with the descriptor spliced in. -/
theorem handedTables_fitness (E : Engine D B G A H S W) (p : LunarAscentProblem D B H S)
    (w : W) (d : List D) :
    handedTables (LunarAscentProblem.fitness E p w d).calls =
      match p.translationalStatePropagatorSettings_ with
      | none => []
      | some h =>
        match getThrustAccelerationModelFromParameters E d p.bodyMap_
            p.integratorSettings_.initialTime_ p.constantSpecificImpulse_ w with
        | .error _ => []
        | .ok t => [pushVehicleSelf (clearVehicleSelf (E.getAccelerationSettingsMap h w))
                      (.thrust t)] := by
  unfold LunarAscentProblem.fitness LunarAscentProblem.computeObjectivesAndConstraints
  split
  · simp [handedTables]
  · split
    · simp [handedTables]
    · simp only []
      split
      · simp [handedTables]
      · split
        · simp [handedTables]
        · split <;> simp [handedTables]

/-- An evaluation writes no member other than `dynamicsSimulator_` and `objectives_`. -/
theorem fitness_members (E : Engine D B G A H S W) (p : LunarAscentProblem D B H S)
    (w : W) (d : List D) :
    (LunarAscentProblem.fitness E p w d).problem =
      { p with
        dynamicsSimulator_ := (LunarAscentProblem.fitness E p w d).problem.dynamicsSimulator_
        objectives_ := (LunarAscentProblem.fitness E p w d).problem.objectives_ } := by
  unfold LunarAscentProblem.fitness LunarAscentProblem.computeObjectivesAndConstraints
  split
  · rfl
  · split
    · rfl
    · simp only []
      split
      · rfl
      · split
        · rfl
        · split <;> rfl

/-- An evaluation that returns has assigned `{ 0.0 }` to `objectives_` and returns it. -/
theorem fitness_ok (E : Engine D B G A H S W) (p : LunarAscentProblem D B H S)
    (w : W) (d : List D) (v : List D)
    (hv : (LunarAscentProblem.fitness E p w d).result = .ok v) :
    v = [0.0] ∧ (LunarAscentProblem.fitness E p w d).problem.objectives_ = [0.0] := by
  revert hv
  unfold LunarAscentProblem.fitness LunarAscentProblem.computeObjectivesAndConstraints
  split
  · simp
  · split
    · simp
    · simp only []
      split
      · simp
      · split
        · simp
        · split
          · simp
          · simp only [Except.map]
            intro hv
            exact ⟨(Except.ok.inj hv).symm, trivial⟩

/-- An evaluation that throws leaves `objectives_` and `dynamicsSimulator_` as they were. -/
theorem fitness_error (E : Engine D B G A H S W) (p : LunarAscentProblem D B H S)
    (w : W) (d : List D) (e : Error)
    (he : (LunarAscentProblem.fitness E p w d).result = .error e) :
    (LunarAscentProblem.fitness E p w d).problem = p := by
  revert he
  unfold LunarAscentProblem.fitness LunarAscentProblem.computeObjectivesAndConstraints
  split
  · simp
  · split
    · simp
    · simp only []
      split
      · simp
      · split
        · simp
        · split
          · simp
          · simp [Except.map]

/-- With a settings object and a thrust descriptor, an evaluation hands exactly one table to
`resetAccelerationModelsMap`: the table read from the settings with the descriptor spliced in. -/
theorem handedTables_fitness_ok (E : Engine D B G A H S W) (p : LunarAscentProblem D B H S)
    (w : W) (d : List D) (h : H) (t : ThrustAccelerationSettings G D)
    (hp : p.translationalStatePropagatorSettings_ = some h)
    (ht : getThrustAccelerationModelFromParameters E d p.bodyMap_
      p.integratorSettings_.initialTime_ p.constantSpecificImpulse_ w = .ok t) :
    handedTables (LunarAscentProblem.fitness E p w d).calls =
      [pushVehicleSelf (clearVehicleSelf (E.getAccelerationSettingsMap h w)) (.thrust t)] := by
  rw [handedTables_fitness, hp]
  simp only [ht]

/-- C1. Whatever the table held before, the table a `fitness( d1 )` call hands to
`resetAccelerationModelsMap` lists exactly one force of "Vehicle" on "Vehicle", the thrust
descriptor built from `d1`; and after `fitness( d1 )` followed by `fitness( d2 )`, whatever
the first call did, the table handed over by the second call lists exactly one, the thrust
descriptor that `getThrustAccelerationModelFromParameters` builds from `d2`, the
integrator's initial time and the constant specific impulse of the instance. -/
theorem fitness_twice_single_thrust_entry (E : Engine D B G A H S W)
    (p : LunarAscentProblem D B H S) (w : W) (d1 d2 : List D) (h : H)
    (hp : p.translationalStatePropagatorSettings_ = some h) :
    (∀ t1, getThrustAccelerationModelFromParameters E d1 p.bodyMap_
        p.integratorSettings_.initialTime_ p.constantSpecificImpulse_ w = .ok t1 →
      ∃ table,
        handedTables (LunarAscentProblem.fitness E p w d1).calls = [table] ∧
        forcesOn table "Vehicle" "Vehicle" = some [.thrust t1]) ∧
    (∀ t2, getThrustAccelerationModelFromParameters E d2 p.bodyMap_
        p.integratorSettings_.initialTime_ p.constantSpecificImpulse_
        (LunarAscentProblem.fitness E p w d1).library = .ok t2 →
      ∃ table,
        handedTables (LunarAscentProblem.fitness E (LunarAscentProblem.fitness E p w d1).problem
          (LunarAscentProblem.fitness E p w d1).library d2).calls = [table] ∧
        forcesOn table "Vehicle" "Vehicle" = some [.thrust t2]) := by
  refine ⟨fun t1 ht => ⟨_, handedTables_fitness_ok E p w d1 h t1 hp ht,
    forcesOn_push_clear _ _⟩, fun t2 ht => ?_⟩
  have hmem := fitness_members E p w d1
  have hp1 : (LunarAscentProblem.fitness E p w d1).problem.translationalStatePropagatorSettings_
      = some h := by rw [hmem]; exact hp
  have ht1 : getThrustAccelerationModelFromParameters E d2
      (LunarAscentProblem.fitness E p w d1).problem.bodyMap_
      (LunarAscentProblem.fitness E p w d1).problem.integratorSettings_.initialTime_
      (LunarAscentProblem.fitness E p w d1).problem.constantSpecificImpulse_
      (LunarAscentProblem.fitness E p w d1).library = .ok t2 := by rw [hmem]; exact ht
  exact ⟨_, handedTables_fitness_ok E _ _ d2 h t2 hp1 ht1, forcesOn_push_clear _ _⟩

/-- C10. The table an evaluation hands to `resetAccelerationModelsMap` agrees with the table
read from the translational propagator settings on every pair of bodies other than
("Vehicle", "Vehicle"): the same descriptors in the same order, or no entry in both. -/
theorem fitness_keeps_other_forces (E : Engine D B G A H S W)
    (p : LunarAscentProblem D B H S) (w : W) (d : List D) (h : H)
    (t : ThrustAccelerationSettings G D)
    (hp : p.translationalStatePropagatorSettings_ = some h)
    (ht : getThrustAccelerationModelFromParameters E d p.bodyMap_
      p.integratorSettings_.initialTime_ p.constantSpecificImpulse_ w = .ok t) :
    ∃ table,
      handedTables (LunarAscentProblem.fitness E p w d).calls = [table] ∧
      ∀ affected exerting : String, ¬ (affected = "Vehicle" ∧ exerting = "Vehicle") →
        forcesOn table affected exerting
          = forcesOn (E.getAccelerationSettingsMap h w) affected exerting :=
  ⟨_, handedTables_fitness_ok E p w d h t hp ht,
    fun affected exerting hne => forcesOn_push_clear_other _ _ affected exerting hne⟩

/-- C2. When the configuration steps and the propagation succeed, `fitness` returns the
objective vector `{ 0.0 }`, of length 1, whatever the decision vector and the histories. -/
theorem fitness_returns_fixed_dimension (E : Engine D B G A H S W)
    (p : LunarAscentProblem D B H S) (w w1 w2 w3 : W) (d : List D) (h : H)
    (t : ThrustAccelerationSettings G D) (simulator : S)
    (hp : p.translationalStatePropagatorSettings_ = some h)
    (ht : getThrustAccelerationModelFromParameters E d p.bodyMap_
      p.integratorSettings_.initialTime_ p.constantSpecificImpulse_ w = .ok t)
    (hr : E.resetAccelerationModelsMap h
      (pushVehicleSelf (clearVehicleSelf (E.getAccelerationSettingsMap h w)) (.thrust t))
      p.bodyMap_ w = (.ok (), w1))
    (hi : E.resetIntegratedStateModels p.propagatorSettings_ p.bodyMap_ w1 = (.ok (), w2))
    (hs : E.newSingleArcDynamicsSimulator p.bodyMap_ p.integratorSettings_
      p.propagatorSettings_ w2
      = (.ok simulator, w3)) :
    ∃ objectives, (LunarAscentProblem.fitness E p w d).result = .ok objectives ∧
      objectives.length = 1 ∧ objectives = [0.0] := by
  refine ⟨[0.0], ?_, rfl, rfl⟩
  simp [LunarAscentProblem.fitness, LunarAscentProblem.computeObjectivesAndConstraints,
    hp, ht, hr, hi, hs, Except.map]

/-- C5. When building the `SingleArcDynamicsSimulator` throws, `fitness` throws that error:
no objective vector is returned, neither history is read (the reduction step does not run),
and `objectives_`, like every other member, keeps its value. -/
theorem fitness_propagation_failure (E : Engine D B G A H S W)
    (p : LunarAscentProblem D B H S) (w w1 w2 w3 : W) (d : List D) (h : H)
    (t : ThrustAccelerationSettings G D) (e : Error)
    (hp : p.translationalStatePropagatorSettings_ = some h)
    (ht : getThrustAccelerationModelFromParameters E d p.bodyMap_
      p.integratorSettings_.initialTime_ p.constantSpecificImpulse_ w = .ok t)
    (hr : E.resetAccelerationModelsMap h
      (pushVehicleSelf (clearVehicleSelf (E.getAccelerationSettingsMap h w)) (.thrust t))
      p.bodyMap_ w = (.ok (), w1))
    (hi : E.resetIntegratedStateModels p.propagatorSettings_ p.bodyMap_ w1 = (.ok (), w2))
    (hs : E.newSingleArcDynamicsSimulator p.bodyMap_ p.integratorSettings_
      p.propagatorSettings_ w2
      = (.error e, w3)) :
    (LunarAscentProblem.fitness E p w d).result = .error e ∧
      (LunarAscentProblem.fitness E p w d).calls =
        [.resetAccelerationModelsMap
            (pushVehicleSelf (clearVehicleSelf (E.getAccelerationSettingsMap h w)) (.thrust t))
            p.bodyMap_,
          .resetIntegratedStateModels, .newSingleArcDynamicsSimulator] ∧
      (LunarAscentProblem.fitness E p w d).problem.objectives_ = p.objectives_ ∧
      (LunarAscentProblem.fitness E p w d).problem = p := by
  simp [LunarAscentProblem.fitness, hp, ht, hr, hi, hs]

/-- C6. Two calls `fitness( d )` in a row, the second one against the context as the first
one left it, return identical objective vectors. -/
theorem fitness_deterministic (E : Engine D B G A H S W)
    (p : LunarAscentProblem D B H S) (w : W) (d : List D) (v1 v2 : List D)
    (h1 : (LunarAscentProblem.fitness E p w d).result = .ok v1)
    (h2 : (LunarAscentProblem.fitness E (LunarAscentProblem.fitness E p w d).problem
      (LunarAscentProblem.fitness E p w d).library d).result = .ok v2) :
    v1 = v2 := by
  rw [(fitness_ok E _ _ d v1 h1).1, (fitness_ok E _ _ d v2 h2).1]

end Evaluation

/-! ## Sequences of evaluations -/

section Sequences

variable {D B G A H S W : Type} [OfScientific D]

/-- Every evaluation of a sequence leaves `constraints_` as it was before the sequence, and
an evaluation that returns leaves `objectives_` equal to `{ 0.0 }`. -/
theorem evaluations_members (E : Engine D B G A H S W) (ds : List (List D)) :
    ∀ (p : LunarAscentProblem D B H S) (w : W),
      ∀ o ∈ evaluations E p w ds,
        o.problem.constraints_ = p.constraints_ ∧
        ((∃ v, o.result = .ok v) → o.problem.objectives_ = [0.0]) := by
  induction ds with
  | nil => intro p w o ho; simp [evaluations] at ho
  | cons d rest ih =>
    intro p w o ho
    have hc : (LunarAscentProblem.fitness E p w d).problem.constraints_ = p.constraints_ := by
      rw [fitness_members E p w d]
    simp only [evaluations, List.mem_cons] at ho
    rcases ho with rfl | ho
    · exact ⟨hc, fun ⟨v, hv⟩ => (fitness_ok E p w d v hv).2⟩
    · have := ih _ _ o ho
      exact ⟨this.1.trans hc, this.2⟩

/-- C8. Across a sequence of successful `fitness` calls on one instance, every call leaves
`objectives_` overwritten with `{ 0.0 }`, so of the length it had after the first call, and
leaves `constraints_` of the length it had after the first call. -/
theorem evaluations_keep_lengths (E : Engine D B G A H S W)
    (p : LunarAscentProblem D B H S) (w : W) (ds : List (List D))
    (first : Outcome (List D) D B G A H S W)
    (hfirst : (evaluations E p w ds).head? = some first)
    (hok : ∀ o ∈ evaluations E p w ds, ∃ v, o.result = .ok v) :
    ∀ o ∈ evaluations E p w ds,
      o.problem.objectives_ = [0.0] ∧
      o.problem.objectives_.length = first.problem.objectives_.length ∧
      o.problem.constraints_.length = first.problem.constraints_.length := by
  have hmem : first ∈ evaluations E p w ds := List.mem_of_mem_head? hfirst
  have hf := evaluations_members E ds p w first hmem
  intro o ho
  have h := evaluations_members E ds p w o ho
  refine ⟨h.2 (hok o ho), ?_, ?_⟩
  · rw [h.2 (hok o ho), hf.2 (hok first hmem)]
  · rw [h.1, hf.1]

end Sequences

/-! ## The constructor -/

section Constructor

variable {D B H S : Type}

/-- With fewer than `2 ^ 32` ranges the counter never wraps: started at `i` with enough
fuel, the loop appends the remaining minima and maxima in order and exits. -/
theorem boxBoundsLoop_finishes (range : List (D × D)) (hlen : range.length < 2 ^ 32) :
    ∀ (fuel i : Nat) (minima maxima : List D), i ≤ range.length → range.length - i < fuel →
      boxBoundsLoop range fuel i minima maxima
        = some (.ok (minima ++ (range.drop i).map Prod.fst,
                     maxima ++ (range.drop i).map Prod.snd)) := by
  intro fuel
  induction fuel with
  | zero => intro i minima maxima _ hfuel; omega
  | succ fuel ih =>
    intro i minima maxima hi hfuel
    unfold boxBoundsLoop
    by_cases hlt : i < range.length
    · have hmod : (i + 1) % 2 ^ 32 = i + 1 := Nat.mod_eq_of_lt (by omega)
      have hat : vectorAt range i = .ok range[i] := by
        simp [vectorAt, List.getElem?_eq_getElem hlt]
      rw [if_pos hlt, hat, hmod]
      simp only []
      rw [ih (i + 1) _ _ (by omega) (by omega), List.drop_eq_getElem_cons hlt]
      simp only [List.map_cons, List.append_assoc, List.singleton_append]
    · have hdrop : range.drop i = [] := List.drop_eq_nil_of_le (by omega)
      rw [if_neg hlt, hdrop]
      simp

/-- With `2 ^ 32` ranges or more the counter wraps to 0 before it can reach the size: the
exit test never fails, whatever the fuel. -/
theorem boxBoundsLoop_diverges (range : List (D × D)) (hlong : 2 ^ 32 ≤ range.length) :
    ∀ (fuel i : Nat) (minima maxima : List D), i < 2 ^ 32 →
      boxBoundsLoop range fuel i minima maxima = none := by
  intro fuel
  induction fuel with
  | zero => intro i minima maxima _; rfl
  | succ fuel ih =>
    intro i minima maxima hi
    have hlt : i < range.length := by omega
    have hat : vectorAt range i = .ok range[i] := by
      simp [vectorAt, List.getElem?_eq_getElem hlt]
    unfold boxBoundsLoop
    rw [if_pos hlt, hat]
    exact ih _ _ _ (Nat.mod_lt _ (by norm_num))

/-- The instance the constructor leaves when the configuration has a first translational
state entry and there are fewer than `2 ^ 32` ranges. -/
theorem constructor_ok (fuel : Nat) (bodyMap : NamedBodyMap B)
    (integratorSettings : IntegratorSettings D)
    (propagatorSettings : MultiTypePropagatorSettings H)
    (decisionVariableRange : List (D × D)) (constantSpecificImpulse : D)
    (settings : SingleArcPropagatorSettingsPtr H) (rest : List (SingleArcPropagatorSettingsPtr H))
    (hfind : find? propagatorSettings.propagatorSettingsMap_ .translational_state
      = some (settings :: rest))
    (hlen : decisionVariableRange.length < 2 ^ 32) (hfuel : decisionVariableRange.length < fuel) :
    LunarAscentProblem.constructor fuel bodyMap integratorSettings propagatorSettings
        decisionVariableRange constantSpecificImpulse
      = some (.ok ({ bodyMap_ := bodyMap
                     integratorSettings_ := integratorSettings
                     propagatorSettings_ := propagatorSettings
                     constantSpecificImpulse_ := constantSpecificImpulse
                     translationalStatePropagatorSettings_ := dynamicPointerCast settings
                     boxBounds_ := (decisionVariableRange.map Prod.fst,
                                    decisionVariableRange.map Prod.snd)
                     dynamicsSimulator_ := none
                     objectives_ := []
                     constraints_ := [] } : LunarAscentProblem D B H S)) := by
  have hloop := boxBoundsLoop_finishes decisionVariableRange hlen fuel 0 [] []
    (Nat.zero_le _) (by omega)
  simp only [List.drop_zero, List.nil_append] at hloop
  simp [LunarAscentProblem.constructor, mapAt, vectorAt, hfind, hloop]

/-- For fewer than `2 ^ 32` ranges the stored box bounds are the minima and the maxima of
the ranges, in order: equal lengths, and the components of the `i`-th range at index `i`. -/
theorem constructor_boxBounds (fuel : Nat) (bodyMap : NamedBodyMap B)
    (integratorSettings : IntegratorSettings D)
    (propagatorSettings : MultiTypePropagatorSettings H)
    (decisionVariableRange : List (D × D)) (constantSpecificImpulse : D)
    (settings : SingleArcPropagatorSettingsPtr H) (rest : List (SingleArcPropagatorSettingsPtr H))
    (hfind : find? propagatorSettings.propagatorSettingsMap_ .translational_state
      = some (settings :: rest))
    (hlen : decisionVariableRange.length < 2 ^ 32) (hfuel : decisionVariableRange.length < fuel) :
    ∃ p : LunarAscentProblem D B H S,
      LunarAscentProblem.constructor fuel bodyMap integratorSettings propagatorSettings
        decisionVariableRange constantSpecificImpulse = some (.ok p) ∧
      p.boxBounds_.1.length = decisionVariableRange.length ∧
      p.boxBounds_.2.length = decisionVariableRange.length ∧
      ∀ (i : Nat) (hi : i < decisionVariableRange.length),
        p.boxBounds_.1[i]? = some decisionVariableRange[i].1 ∧
        p.boxBounds_.2[i]? = some decisionVariableRange[i].2 := by
  refine ⟨_, constructor_ok fuel bodyMap integratorSettings propagatorSettings
    decisionVariableRange constantSpecificImpulse settings rest hfind hlen hfuel, ?_, ?_, ?_⟩
  · simp
  · simp
  · intro i hi
    simp [List.getElem?_eq_getElem hi]

/-- An instance the constructor returns has the members the constructor was given, the
pointer cast from the first translational state entry, and nothing evaluated yet. -/
theorem constructor_pointer (fuel : Nat) (bodyMap : NamedBodyMap B)
    (integratorSettings : IntegratorSettings D)
    (propagatorSettings : MultiTypePropagatorSettings H)
    (decisionVariableRange : List (D × D)) (constantSpecificImpulse : D)
    (p : LunarAscentProblem D B H S)
    (hp : LunarAscentProblem.constructor fuel bodyMap integratorSettings propagatorSettings
      decisionVariableRange constantSpecificImpulse = some (.ok p)) :
    ∃ settings rest,
      find? propagatorSettings.propagatorSettingsMap_ .translational_state
        = some (settings :: rest) ∧
      p.translationalStatePropagatorSettings_ = dynamicPointerCast settings := by
  unfold LunarAscentProblem.constructor mapAt vectorAt at hp
  cases hfind : find? propagatorSettings.propagatorSettingsMap_ .translational_state with
  | none => simp [hfind] at hp
  | some settingsList =>
    cases settingsList with
    | nil => simp [hfind] at hp
    | cons settings rest =>
      refine ⟨settings, rest, rfl, ?_⟩
      simp only [hfind, List.getElem?_cons_zero] at hp
      cases hloop : boxBoundsLoop decisionVariableRange fuel 0 [] [] with
      | none => simp [hloop] at hp
      | some r =>
        cases r with
        | error e => simp [hloop] at hp
        | ok bounds =>
          simp only [hloop, Option.some.injEq, Except.ok.injEq] at hp
          rw [← hp]

/-- With a first translational state entry and `2 ^ 32` ranges or more, no amount of fuel
lets the constructor return. -/
theorem constructor_diverges (fuel : Nat) (bodyMap : NamedBodyMap B)
    (integratorSettings : IntegratorSettings D)
    (propagatorSettings : MultiTypePropagatorSettings H)
    (decisionVariableRange : List (D × D)) (constantSpecificImpulse : D)
    (settings : SingleArcPropagatorSettingsPtr H) (rest : List (SingleArcPropagatorSettingsPtr H))
    (hfind : find? propagatorSettings.propagatorSettingsMap_ .translational_state
      = some (settings :: rest))
    (hlong : 2 ^ 32 ≤ decisionVariableRange.length) :
    (LunarAscentProblem.constructor fuel bodyMap integratorSettings propagatorSettings
        decisionVariableRange constantSpecificImpulse : Option (Except Error
          (LunarAscentProblem D B H S))) = none := by
  have hloop := boxBoundsLoop_diverges decisionVariableRange hlong fuel 0 [] [] (by norm_num)
  simp [LunarAscentProblem.constructor, mapAt, vectorAt, hfind, hloop]

/-- C3, at `2 ^ 32` ranges. The constructor, given a well-formed configuration and
`2 ^ 32` pairs `(0, 1)`, never returns: the 32-bit counter wraps to 0 after index
`2 ^ 32 - 1`, so `i < decisionVariableRange.size( )` stays true and no box bounds are stored. -/
theorem constructor_never_returns_on_long_range :
    ¬ ∃ fuel : Nat,
      (LunarAscentProblem.constructor fuel smallBodyMap { initialTime_ := (0 : ℚ) }
        smallPropagatorSettings (List.replicate (2 ^ 32) ((0 : ℚ), (1 : ℚ))) 3000 :
          Option (Except Error (LunarAscentProblem ℚ Nat Unit Nat))) ≠ none := by
  rintro ⟨fuel, hfuel⟩
  exact hfuel (constructor_diverges fuel _ _ smallPropagatorSettings _ _
    (.translational ()) [] rfl (by rw [List.length_replicate]))

/-- C7. From a propagator configuration with no `translational_state` entry, with an empty
list under it, or with a first element that is not a translational settings object, the
constructor throws `std::out_of_range` in the first two cases, and in no case returns an
instance on which some `fitness` call returns an objective vector: every such call stops
at the empty settings pointer before any library call. -/
theorem constructor_without_translational_settings [OfScientific D] (fuel : Nat)
    (bodyMap : NamedBodyMap B) (integratorSettings : IntegratorSettings D)
    (propagatorSettings : MultiTypePropagatorSettings H)
    (decisionVariableRange : List (D × D)) (constantSpecificImpulse : D)
    (hlacks : lacksTranslationalSettings propagatorSettings) :
    ((find? propagatorSettings.propagatorSettingsMap_ .translational_state = none ∨
        find? propagatorSettings.propagatorSettingsMap_ .translational_state = some []) →
      (LunarAscentProblem.constructor fuel bodyMap integratorSettings propagatorSettings
        decisionVariableRange constantSpecificImpulse : Option (Except Error
          (LunarAscentProblem D B H S))) = some (.error .out_of_range)) ∧
    ∀ p : LunarAscentProblem D B H S,
      LunarAscentProblem.constructor fuel bodyMap integratorSettings propagatorSettings
        decisionVariableRange constantSpecificImpulse = some (.ok p) →
      ∀ (G A W : Type) (E : Engine D B G A H S W) (w : W) (d : List D),
        (LunarAscentProblem.fitness E p w d).result = .error .nullDereference ∧
        (LunarAscentProblem.fitness E p w d).calls = [] := by
  constructor
  · rintro (hnone | hnil)
    · simp [LunarAscentProblem.constructor, mapAt, hnone]
    · simp [LunarAscentProblem.constructor, mapAt, vectorAt, hnil]
  · intro p hp G A W E w d
    obtain ⟨settings, rest, hfind, hpointer⟩ := constructor_pointer fuel bodyMap
      integratorSettings propagatorSettings decisionVariableRange constantSpecificImpulse p hp
    have hcast : dynamicPointerCast settings = none := by
      simpa [lacksTranslationalSettings, hfind] using hlacks
    rw [hcast] at hpointer
    simp [LunarAscentProblem.fitness, hpointer]

end Constructor

/-! ## The small instance, evaluated -/

/-- The small library builds a thrust descriptor from every non-empty parameter vector. -/
theorem smallThrust_ok (d0 : ℚ) (d : List ℚ) (w : SmallWorld) :
    getThrustAccelerationModelFromParameters smallEngine (d0 :: d) smallBodyMap 0 3000 w
      = .ok (smallThrust (d0 :: d)) := rfl

/-- C1 on the small instance: after evaluations at `[1, 2]` and `[3, 4]` the two stale
entries are gone and the only force of the vehicle on itself is the thrust built from
`[3, 4]`. -/
theorem fitness_twice_single_thrust_entry_witness :
    smallProblem.translationalStatePropagatorSettings_ = some () ∧
    getThrustAccelerationModelFromParameters smallEngine [3, 4] smallProblem.bodyMap_
      smallProblem.integratorSettings_.initialTime_ smallProblem.constantSpecificImpulse_
      (LunarAscentProblem.fitness smallEngine smallProblem smallWorld [1, 2]).library
        = .ok (smallThrust [3, 4]) ∧
    (∃ table,
      handedTables (LunarAscentProblem.fitness smallEngine smallProblem smallWorld
        [1, 2]).calls = [table] ∧
      forcesOn table "Vehicle" "Vehicle" = some [.thrust (smallThrust [1, 2])]) ∧
    ∃ table,
      handedTables (LunarAscentProblem.fitness smallEngine
        (LunarAscentProblem.fitness smallEngine smallProblem smallWorld [1, 2]).problem
        (LunarAscentProblem.fitness smallEngine smallProblem smallWorld [1, 2]).library
        [3, 4]).calls = [table] ∧
      forcesOn table "Vehicle" "Vehicle" = some [.thrust (smallThrust [3, 4])] :=
  have h := fitness_twice_single_thrust_entry smallEngine smallProblem smallWorld
    [1, 2] [3, 4] () rfl
  ⟨rfl, smallThrust_ok 3 [4] _, h.1 _ (smallThrust_ok 1 [2] _), h.2 _ (smallThrust_ok 3 [4] _)⟩

/-- C10 on the small instance: the Moon's gravity on the vehicle is handed on unchanged. -/
theorem fitness_keeps_other_forces_witness :
    smallProblem.translationalStatePropagatorSettings_ = some () ∧
    getThrustAccelerationModelFromParameters smallEngine [1, 2] smallProblem.bodyMap_
      smallProblem.integratorSettings_.initialTime_ smallProblem.constantSpecificImpulse_
      smallWorld = .ok (smallThrust [1, 2]) ∧
    ∃ table,
      handedTables (LunarAscentProblem.fitness smallEngine smallProblem smallWorld
        [1, 2]).calls = [table] ∧
      forcesOn table "Vehicle" "Moon" = some [.other "pointMassGravity"] := by
  obtain ⟨table, hhanded, hkept⟩ :=
    fitness_keeps_other_forces smallEngine smallProblem smallWorld [1, 2] ()
      (smallThrust [1, 2]) rfl (smallThrust_ok 1 [2] _)
  exact ⟨rfl, smallThrust_ok 1 [2] _, table, hhanded,
    (hkept "Vehicle" "Moon" (by decide)).trans rfl⟩

/-- C2 on the small instance: the evaluation at `[1/2, 157/100]` returns `{ 0.0 }`. -/
theorem fitness_returns_fixed_dimension_witness :
    smallProblem.translationalStatePropagatorSettings_ = some () ∧
    getThrustAccelerationModelFromParameters smallEngine [1 / 2, 157 / 100]
      smallProblem.bodyMap_ smallProblem.integratorSettings_.initialTime_
      smallProblem.constantSpecificImpulse_ smallWorld = .ok (smallThrust [1 / 2, 157 / 100]) ∧
    ∃ objectives,
      (LunarAscentProblem.fitness smallEngine smallProblem smallWorld
        [1 / 2, 157 / 100]).result = .ok objectives ∧
      objectives.length = 1 ∧ objectives = [0.0] :=
  ⟨rfl, smallThrust_ok _ _ _,
    fitness_returns_fixed_dimension smallEngine smallProblem smallWorld _ _ _
      [1 / 2, 157 / 100] () (smallThrust [1 / 2, 157 / 100]) 0 rfl (smallThrust_ok _ _ _)
      rfl rfl rfl⟩

/-- C5 on the small instance: in the failing world the evaluation throws the library's error
and `objectives_` stays empty. -/
theorem fitness_propagation_failure_witness :
    smallEngine.newSingleArcDynamicsSimulator smallProblem.bodyMap_
      smallProblem.integratorSettings_ smallProblem.propagatorSettings_
      { table := pushVehicleSelf (clearVehicleSelf smallTable) (.thrust (smallThrust [1, 2]))
        propagationFails := true }
      = (.error (.library "propagation failed"),
          { table := pushVehicleSelf (clearVehicleSelf smallTable) (.thrust (smallThrust [1, 2]))
            propagationFails := true }) ∧
    (LunarAscentProblem.fitness smallEngine smallProblem failingWorld [1, 2]).result
      = .error (.library "propagation failed") ∧
    (LunarAscentProblem.fitness smallEngine smallProblem failingWorld [1, 2]).problem.objectives_
      = [] :=
  have h := fitness_propagation_failure smallEngine smallProblem failingWorld
    { table := pushVehicleSelf (clearVehicleSelf smallTable) (.thrust (smallThrust [1, 2]))
      propagationFails := true }
    { table := pushVehicleSelf (clearVehicleSelf smallTable) (.thrust (smallThrust [1, 2]))
      propagationFails := true }
    { table := pushVehicleSelf (clearVehicleSelf smallTable) (.thrust (smallThrust [1, 2]))
      propagationFails := true }
    [1, 2] () (smallThrust [1, 2]) (.library "propagation failed") rfl
    (smallThrust_ok 1 [2] _) rfl rfl rfl
  ⟨rfl, h.1, h.2.2.1⟩

/-- C6 on the small instance: two evaluations at `[1, 2]` in a row return the same vector. -/
theorem fitness_deterministic_witness :
    (LunarAscentProblem.fitness smallEngine smallProblem smallWorld [1, 2]).result
      = .ok [0.0] ∧
    (LunarAscentProblem.fitness smallEngine
      (LunarAscentProblem.fitness smallEngine smallProblem smallWorld [1, 2]).problem
      (LunarAscentProblem.fitness smallEngine smallProblem smallWorld [1, 2]).library
      [1, 2]).result = .ok [0.0] ∧
    ([0.0] : List ℚ) = [0.0] :=
  ⟨rfl, rfl, fitness_deterministic smallEngine smallProblem smallWorld [1, 2] [0.0] [0.0]
    rfl rfl⟩

/-- Every evaluation of the small instance at `[1, 2]` then `[3, 4]` returns. -/
theorem evaluations_small_ok :
    ∀ o ∈ evaluations smallEngine smallProblem smallWorld [[1, 2], [3, 4]],
      ∃ v, o.result = .ok v := by
  intro o ho
  simp only [evaluations, List.mem_cons, List.mem_singleton, List.not_mem_nil, or_false] at ho
  rcases ho with rfl | rfl <;> exact ⟨[0.0], rfl⟩

/-- C8 on the small instance: after each of two successful evaluations `objectives_` is
`{ 0.0 }` and both vectors have the lengths they had after the first one. -/
theorem evaluations_keep_lengths_witness :
    (evaluations smallEngine smallProblem smallWorld [[1, 2], [3, 4]]).head?
      = some (LunarAscentProblem.fitness smallEngine smallProblem smallWorld [1, 2]) ∧
    (∀ o ∈ evaluations smallEngine smallProblem smallWorld [[1, 2], [3, 4]],
      ∃ v, o.result = .ok v) ∧
    ∀ o ∈ evaluations smallEngine smallProblem smallWorld [[1, 2], [3, 4]],
      o.problem.objectives_ = [0.0] ∧
      o.problem.objectives_.length =
        (LunarAscentProblem.fitness smallEngine smallProblem smallWorld
          [1, 2]).problem.objectives_.length ∧
      o.problem.constraints_.length =
        (LunarAscentProblem.fitness smallEngine smallProblem smallWorld
          [1, 2]).problem.constraints_.length :=
  ⟨rfl, evaluations_small_ok,
    evaluations_keep_lengths smallEngine smallProblem smallWorld [[1, 2], [3, 4]] _ rfl
      evaluations_small_ok⟩

/-- C7 on the small instance: with a first translational state entry of another kind the
constructor returns an instance with an empty settings pointer, and an evaluation of it
fails at that pointer. -/
theorem constructor_without_translational_settings_witness :
    lacksTranslationalSettings wrongKindPropagatorSettings ∧
    LunarAscentProblem.constructor 3 smallBodyMap { initialTime_ := (0 : ℚ) }
      wrongKindPropagatorSettings [(0, 1), (0, 6)] 3000
      = some (.ok { smallProblem with
          propagatorSettings_ := wrongKindPropagatorSettings
          translationalStatePropagatorSettings_ := none }) ∧
    (LunarAscentProblem.fitness smallEngine
      { smallProblem with
        propagatorSettings_ := wrongKindPropagatorSettings
        translationalStatePropagatorSettings_ := none } smallWorld [1, 2]).result
      = .error .nullDereference :=
  have hlacks : lacksTranslationalSettings wrongKindPropagatorSettings := by
    simp [lacksTranslationalSettings, wrongKindPropagatorSettings, find?, dynamicPointerCast]
  have hbuilt : LunarAscentProblem.constructor 3 smallBodyMap { initialTime_ := (0 : ℚ) }
      wrongKindPropagatorSettings [(0, 1), (0, 6)] 3000
      = some (.ok { smallProblem with
          propagatorSettings_ := wrongKindPropagatorSettings
          translationalStatePropagatorSettings_ := none }) :=
    constructor_ok 3 smallBodyMap { initialTime_ := (0 : ℚ) } wrongKindPropagatorSettings
      [(0, 1), (0, 6)] 3000 .otherSettings [] rfl (by norm_num) (by norm_num)
  ⟨hlacks, hbuilt,
    ((constructor_without_translational_settings 3 smallBodyMap { initialTime_ := (0 : ℚ) }
      wrongKindPropagatorSettings [(0, 1), (0, 6)] 3000 hlacks).2 _ hbuilt
        (List ℚ) String SmallWorld smallEngine smallWorld [1, 2]).1⟩

end LunarAscent
